import Mathlib

/-!
Verification of the `transform-normalize-timestamps` crate.

The crate's core (`src/time_patterns.rs`) is a catalog `TIMESTAMP_FORMATS`
mapping format names to anchored regex patterns, and a classifier
`identify_timestamp_format` that tests an input string against every
catalog entry and collects the names whose regex matches.

This file gives a shallow embedding:

* `RE` is a regex abstract syntax tree covering exactly the constructs the
  catalog uses (character classes, concatenation, alternation, bounded
  repetition expanded at definition time, and `+` over character classes
  via Kleene star).  Matching is by Brzozowski derivatives over the list
  of Unicode code points of the input.
* Every pattern string of the source catalog is translated, one
  definition per entry, into an `RE` term.  The source patterns all begin
  with `^` and end with `$` and are used through `Regex::is_match` with no
  multiline flags, so an anchored match of the source regex on a haystack
  is exactly a whole-input match; the embedding therefore uses a
  whole-input matcher and drops the explicit anchors.  `\d` is modelled as
  the ASCII digit range `[0-9]`; every concrete string evaluated in this
  development is ASCII (or, for the CJK calendar patterns, uses classes
  that are translated exactly), so the Unicode-digit generalisation of the
  `regex` crate does not affect any result proved here.  Capturing and
  non-capturing groups are both translated to plain grouping, which is
  faithful because only `is_match` is called.
* `identify_timestamp_format_over` mirrors the classifier loop of the
  source: each entry's compile result is inspected (`Option RE` models the
  `Result` of `Regex::new`; every pattern of the shipped catalog is a
  valid regex, so every entry carries `some`), a failed compile is
  skipped, and a successful match appends the name.
* `get_category` mirrors the `get_category` helper of the crate's test
  module, used for the discriminating-example property.
* `map` mirrors the record transform of `src/lib.rs`: UTF-8 validation of
  the record value (`utf8ToCodes` follows the well-formed byte sequences
  accepted by `std::str::from_utf8`), `str::parse::<i32>` (`parseI32`),
  doubling with two's-complement wrap-around (`wrapI32`, the behaviour of
  release-mode `i32` multiplication), and decimal re-emission
  (`intToCodes`, the bytes of `i32::to_string`).  Errors are propagated
  with `?` in the source; the embedding returns `Except Unit` since the
  claims only concern whether an error is produced.
-/

/-- Regex abstract syntax: empty language, empty string, a character class
given as a list of inclusive code-point ranges, concatenation,
alternation, and Kleene star. -/
inductive RE where
  | emp : RE
  | eps : RE
  | cls : List (Nat × Nat) → RE
  | cat : RE → RE → RE
  | alt : RE → RE → RE
  | star : RE → RE
  deriving DecidableEq

/-- Nullability: whether the language of a regex contains the empty string. -/
def nullable : RE → Bool
  | .emp => false
  | .eps => true
  | .cls _ => false
  | .cat a b => nullable a && nullable b
  | .alt a b => nullable a || nullable b
  | .star _ => true

/-- Smart concatenation collapsing the empty language and the empty string. -/
def catS : RE → RE → RE
  | .emp, _ => .emp
  | .eps, b => b
  | a, b =>
    match b with
    | .emp => .emp
    | .eps => a
    | b => .cat a b

/-- Smart alternation collapsing the empty language. -/
def altS : RE → RE → RE
  | .emp, b => b
  | a, b =>
    match b with
    | .emp => a
    | b => .alt a b

/-- Brzozowski derivative of a regex by one code point. -/
def derivRE (c : Nat) : RE → RE
  | .emp => .emp
  | .eps => .emp
  | .cls rs => if rs.any (fun p => decide (p.1 ≤ c ∧ c ≤ p.2)) then .eps else .emp
  | .cat a b =>
    if nullable a then altS (catS (derivRE c a) b) (derivRE c b)
    else catS (derivRE c a) b
  | .alt a b => altS (derivRE c a) (derivRE c b)
  | .star a => catS (derivRE c a) (.star a)

/-- Whole-input match: successive derivatives followed by a nullability
check, the semantics of an anchored `^…$` regex under `is_match`. -/
def matchRE (r : RE) (cs : List Nat) : Bool :=
  nullable (cs.foldl (fun r c => derivRE c r) r)

/-- Code points of a string, the alphabet over which matching happens. -/
def strCodes (s : String) : List Nat :=
  s.data.map Char.toNat

/-- Character class from explicit code-point ranges. -/
def clsN (rs : List (Nat × Nat)) : RE := .cls rs

/-- Single literal character. -/
def chC (c : Char) : RE := .cls [(c.toNat, c.toNat)]

/-- Character range such as `[0-9]`. -/
def rgC (a b : Char) : RE := .cls [(a.toNat, b.toNat)]

/-- Concatenation of a list of regexes. -/
def reSeq (l : List RE) : RE := l.foldr catS .eps

/-- Alternation of a list of regexes. -/
def reAlts (l : List RE) : RE := l.foldr altS .emp

/-- Optional regex, `r?`. -/
def reOpt (r : RE) : RE := .alt .eps r

/-- One-or-more repetition, `r+`. -/
def rePlus (r : RE) : RE := .cat r (.star r)

/-- Exact repetition, `r{n}`, expanded to a concatenation. -/
def reRepN : Nat → RE → RE
  | 0, _ => .eps
  | n + 1, r => catS r (reRepN n r)

/-- Bounded repetition, `r{lo,hi}`, expanded to an alternation of exact
repetitions. -/
def reRepR (lo hi : Nat) (r : RE) : RE :=
  reAlts ((List.range (hi + 1 - lo)).map fun k => reRepN (lo + k) r)

/-- Literal string. -/
def reLit (s : String) : RE := reSeq (s.data.map chC)

/-- Fragment `\d`, modelled as the ASCII digit range. -/
def digit : RE := rgC '0' '9'

/-- Fragment `\d{2}`. -/
def d2 : RE := reRepN 2 digit

/-- Fragment `\d{4}`. -/
def d4 : RE := reRepN 4 digit

/-- Fragment `(0[1-9]|1[0-2])`, a zero-padded month. -/
def mm2 : RE := reAlts [reSeq [chC '0', rgC '1' '9'], reSeq [chC '1', rgC '0' '2']]

/-- Fragment `(0[1-9]|[12]\d|3[01])`, a zero-padded day of month. -/
def dd2 : RE :=
  reAlts [reSeq [chC '0', rgC '1' '9'], reSeq [rgC '1' '2', digit], reSeq [chC '3', rgC '0' '1']]

/-- Fragment `([01]\d|2[0-3])`, a zero-padded 24-hour hour. -/
def hh2 : RE := reAlts [reSeq [rgC '0' '1', digit], reSeq [chC '2', rgC '0' '3']]

/-- Fragment `[0-5]\d`, a minute or second. -/
def ms2 : RE := reSeq [rgC '0' '5', digit]

/-- Fragment `([01]\d|2[0-3]):[0-5]\d:[0-5]\d`, an `hh:mm:ss` clock time. -/
def hms : RE := reSeq [hh2, chC ':', ms2, chC ':', ms2]

/-- Fragment `(0?[1-9]|1[0-2])`, a month or 12-hour hour without forced
zero padding. -/
def n12 : RE := reAlts [reSeq [reOpt (chC '0'), rgC '1' '9'], reSeq [chC '1', rgC '0' '2']]

/-- Fragment `(0?[1-9]|[12]\d|3[01])`, a day of month without forced zero
padding. -/
def n31 : RE :=
  reAlts [reSeq [reOpt (chC '0'), rgC '1' '9'], reSeq [rgC '1' '2', digit],
    reSeq [chC '3', rgC '0' '1']]

/-- Fragment `(00[1-9]|0[1-9]\d|[1-2]\d\d|3[0-5]\d|36[0-6])`, a day of
year. -/
def ddd3 : RE :=
  reAlts [reSeq [reLit "00", rgC '1' '9'], reSeq [chC '0', rgC '1' '9', digit],
    reSeq [rgC '1' '2', digit, digit], reSeq [chC '3', rgC '0' '5', digit],
    reSeq [reLit "36", rgC '0' '6']]

/-- Fragment `(0[1-9]|[1-4]\d|5[0-3])`, an ISO week number. -/
def wk2 : RE :=
  reAlts [reSeq [chC '0', rgC '1' '9'], reSeq [rgC '1' '4', digit], reSeq [chC '5', rgC '0' '3']]

/-- Fragment `(0[0-9]|[1-5]\d)`, a minute or second written with an
explicit leading-zero alternative. -/
def sec2 : RE := reAlts [reSeq [chC '0', rgC '0' '9'], reSeq [rgC '1' '5', digit]]

/-- Fragment `[+-]`. -/
def pm : RE := clsN [(43, 43), (45, 45)]

/-- Fragment `[+-]([01]\d|2[0-3]):[0-5]\d`, a colon-separated UTC offset. -/
def tzColon : RE := reSeq [pm, hh2, chC ':', ms2]

/-- Fragment `\.\d{1,n}`, a fractional-seconds suffix. -/
def frac (n : Nat) : RE := reSeq [chC '.', reRepR 1 n digit]

/-- Fragment `(Jan|Feb|…|Dec)`. -/
def monAbbr : RE :=
  reAlts (["Jan", "Feb", "Mar", "Apr", "May", "Jun", "Jul", "Aug", "Sep", "Oct", "Nov",
    "Dec"].map reLit)

/-- Fragment `(JAN|FEB|…|DEC)`. -/
def monUp : RE :=
  reAlts (["JAN", "FEB", "MAR", "APR", "MAY", "JUN", "JUL", "AUG", "SEP", "OCT", "NOV",
    "DEC"].map reLit)

/-- Fragment `(Mon|Tue|…|Sun)`. -/
def wdayAbbr : RE := reAlts (["Mon", "Tue", "Wed", "Thu", "Fri", "Sat", "Sun"].map reLit)

/-- Fragment `(Monday|Tuesday|…|Sunday)`. -/
def wdayFull : RE :=
  reAlts (["Monday", "Tuesday", "Wednesday", "Thursday", "Friday", "Saturday",
    "Sunday"].map reLit)

/-- Fragment `[AP]M`. -/
def ap : RE := reSeq [clsN [(65, 65), (80, 80)], chC 'M']

/-- Pattern of catalog entry `ISO_DATE`. -/
def re_ISO_DATE : RE := reSeq [d4, chC '-', mm2, chC '-', dd2]

/-- Pattern of catalog entry `ISO_DATETIME`. -/
def re_ISO_DATETIME : RE := reSeq [d4, chC '-', mm2, chC '-', dd2, chC 'T', hms]

/-- Pattern of catalog entry `ISO_DATETIME_UTC`. -/
def re_ISO_DATETIME_UTC : RE :=
  reSeq [d4, chC '-', mm2, chC '-', dd2, chC 'T', hms, reAlts [reLit "Z", reLit "UTC"]]

/-- Pattern of catalog entry `ISO_DATETIME_TZ`. -/
def re_ISO_DATETIME_TZ : RE :=
  reSeq [d4, chC '-', mm2, chC '-', dd2, chC 'T', hms, pm, hh2, chC ':', ms2]

/-- Pattern of catalog entry `ISO_DATETIME_MS`. -/
def re_ISO_DATETIME_MS : RE := reSeq [d4, chC '-', mm2, chC '-', dd2, chC 'T', hms, frac 9]

/-- Pattern of catalog entry `ISO_DATETIME_MS_UTC`. -/
def re_ISO_DATETIME_MS_UTC : RE :=
  reSeq [d4, chC '-', mm2, chC '-', dd2, chC 'T', hms, frac 9, reAlts [reLit "Z", reLit "UTC"]]

/-- Pattern of catalog entry `ISO_DATE_BASIC`. -/
def re_ISO_DATE_BASIC : RE := reSeq [d4, mm2, dd2]

/-- Pattern of catalog entry `ISO_DATETIME_BASIC`. -/
def re_ISO_DATETIME_BASIC : RE := reSeq [d4, mm2, dd2, chC 'T', hh2, ms2, ms2]

/-- Pattern of catalog entry `ISO_ORDINAL_DATE`. -/
def re_ISO_ORDINAL_DATE : RE := reSeq [d4, chC '-', ddd3]

/-- Pattern of catalog entry `ISO_WEEK_DATE`. -/
def re_ISO_WEEK_DATE : RE := reSeq [d4, chC '-', chC 'W', wk2, chC '-', rgC '1' '7']

/-- Pattern of catalog entry `UNIX_SECONDS`. -/
def re_UNIX_SECONDS : RE := reSeq [rgC '1' '9', reRepN 9 digit]

/-- Pattern of catalog entry `UNIX_MILLISECONDS`. -/
def re_UNIX_MILLISECONDS : RE := reSeq [rgC '1' '9', reRepN 12 digit]

/-- Pattern of catalog entry `UNIX_MICROSECONDS`. -/
def re_UNIX_MICROSECONDS : RE := reSeq [rgC '1' '9', reRepN 15 digit]

/-- Pattern of catalog entry `UNIX_NANOSECONDS`. -/
def re_UNIX_NANOSECONDS : RE := reSeq [rgC '1' '9', reRepN 18 digit]

/-- Pattern of catalog entry `RFC_822_1123`. -/
def re_RFC_822_1123 : RE :=
  reSeq [wdayAbbr, reLit ", ", dd2, chC ' ', monAbbr, chC ' ', d4, chC ' ', hms, reLit " GMT"]

/-- Pattern of catalog entry `RFC_850_1036`. -/
def re_RFC_850_1036 : RE :=
  reSeq [wdayFull, reLit ", ", dd2, chC '-', monAbbr, chC '-', d2, chC ' ', hms, reLit " GMT"]

/-- Pattern of catalog entry `ANSI_C_ASCTIME`. -/
def re_ANSI_C_ASCTIME : RE :=
  reSeq [wdayAbbr, chC ' ', monAbbr, chC ' ',
    reAlts [clsN [(32, 32), (49, 57)], reSeq [rgC '1' '2', digit], reSeq [chC '3', rgC '0' '1']],
    chC ' ', hms, chC ' ', d4]

/-- Pattern of catalog entry `RFC_3339`. -/
def re_RFC_3339 : RE :=
  reSeq [d4, chC '-', mm2, chC '-', dd2, chC 'T', hms, reAlts [tzColon, reLit "Z"]]

/-- Pattern of catalog entry `US_DATETIME`. -/
def re_US_DATETIME : RE := reSeq [n12, chC '/', n31, chC '/', d4, chC ' ', hms]

/-- Pattern of catalog entry `EU_DATETIME`. -/
def re_EU_DATETIME : RE := reSeq [n31, chC '/', n12, chC '/', d4, chC ' ', hms]

/-- Pattern of catalog entry `ASIAN_DATETIME`. -/
def re_ASIAN_DATETIME : RE := reSeq [d4, chC '/', n12, chC '/', n31, chC ' ', hms]

/-- Pattern of catalog entry `GERMAN_DATETIME`. -/
def re_GERMAN_DATETIME : RE := reSeq [n31, chC '.', n12, chC '.', d4, chC ' ', hms]

/-- Pattern of catalog entry `UK_DATETIME`. -/
def re_UK_DATETIME : RE := reSeq [n31, chC '-', monAbbr, chC '-', d4, chC ' ', hms]

/-- Pattern of catalog entry `SHORT_EU_DATETIME`. -/
def re_SHORT_EU_DATETIME : RE := reSeq [n31, chC '-', n12, chC '-', d2, chC ' ', hms]

/-- Pattern of catalog entry `SHORT_US_DATETIME`. -/
def re_SHORT_US_DATETIME : RE := reSeq [n12, chC '-', n31, chC '-', d2, chC ' ', hms]

/-- Pattern of catalog entry `TIME_LEADING_FORMAT`. -/
def re_TIME_LEADING_FORMAT : RE := reSeq [hms, chC ' ', n31, chC '/', n12, chC '/', d4]

/-- Pattern of catalog entry `TIME_24H`. -/
def re_TIME_24H : RE := hms

/-- Pattern of catalog entry `TIME_24H_MS`. -/
def re_TIME_24H_MS : RE := reSeq [hms, frac 3]

/-- Pattern of catalog entry `TIME_12H`. -/
def re_TIME_12H : RE := reSeq [n12, chC ':', ms2, chC ':', ms2, chC ' ', ap]

/-- Pattern of catalog entry `TIME_12H_SHORT`. -/
def re_TIME_12H_SHORT : RE := reSeq [n12, chC ':', ms2, chC ' ', ap]

/-- Pattern of catalog entry `TIME_CONTINUOUS_MS`. -/
def re_TIME_CONTINUOUS_MS : RE := reSeq [hh2, ms2, ms2, reRepN 3 digit]

/-- Pattern of catalog entry `TIME_MILITARY`. -/
def re_TIME_MILITARY : RE := reSeq [hh2, ms2, ms2]

/-- Pattern of catalog entry `SQL_TIMESTAMP`. -/
def re_SQL_TIMESTAMP : RE := reSeq [d4, chC '-', mm2, chC '-', dd2, chC ' ', hms]

/-- Pattern of catalog entry `SQL_TIMESTAMP_MS`. -/
def re_SQL_TIMESTAMP_MS : RE := reSeq [d4, chC '-', mm2, chC '-', dd2, chC ' ', hms, frac 6]

/-- Pattern of catalog entry `ORACLE_TIMESTAMP`. -/
def re_ORACLE_TIMESTAMP : RE :=
  reSeq [n31, chC '-', monUp, chC '-', d2, chC ' ', n12, chC '.', sec2, chC '.', sec2,
    chC '.', reRepR 1 4 digit, chC ' ', ap]

/-- Pattern of catalog entry `DB2_TIMESTAMP`. -/
def re_DB2_TIMESTAMP : RE :=
  reSeq [d4, chC '-', mm2, chC '-', dd2, chC '-', hh2, chC '.', sec2, chC '.', sec2,
    chC '.', reRepR 1 6 digit]

/-- Pattern of catalog entry `MSSQL_TIMESTAMP`. -/
def re_MSSQL_TIMESTAMP : RE := reSeq [d4, mm2, dd2, chC ' ', hms]

/-- Pattern of catalog entry `COMPACT_TIMESTAMP`. -/
def re_COMPACT_TIMESTAMP : RE := reSeq [d4, mm2, dd2, hh2, ms2, ms2, reRepR 1 3 digit]

/-- Pattern of catalog entry `POSTGRES_TIMESTAMP_TZ`. -/
def re_POSTGRES_TIMESTAMP_TZ : RE :=
  reSeq [d4, chC '-', mm2, chC '-', dd2, chC ' ', hms, frac 6, pm, hh2, chC ':', ms2]

/-- Pattern of catalog entry `TAGGED_UNIX`. -/
def re_TAGGED_UNIX : RE := reSeq [chC '@', rgC '1' '9', reRepN 9 digit]

/-- Pattern of catalog entry `SHORT_DATE`. -/
def re_SHORT_DATE : RE := reSeq [d2, chC '-', mm2, chC '-', dd2]

/-- Pattern of catalog entry `SAS_DATETIME`. -/
def re_SAS_DATETIME : RE := reSeq [n31, monUp, d4, chC ':', hms]

/-- Pattern of catalog entry `DOTNET_DATETIME`. -/
def re_DOTNET_DATETIME : RE :=
  reSeq [n12, chC '/', n31, chC '/', d4, chC ' ', n12, chC ':', ms2, chC ':', ms2, chC ' ', ap]

/-- Pattern of catalog entry `HYPHEN_SEPARATED`. -/
def re_HYPHEN_SEPARATED : RE :=
  reSeq [d4, chC '-', mm2, chC '-', dd2, chC '-', hh2, chC '-', ms2, chC '-', ms2]

/-- Pattern of catalog entry `CONTINUOUS_DATETIME`. -/
def re_CONTINUOUS_DATETIME : RE := reSeq [d4, mm2, dd2, hh2, ms2, ms2]

/-- Pattern of catalog entry `NASA_MISSION`. -/
def re_NASA_MISSION : RE := reSeq [d2, chC '.', ddd3, chC '/', hms]

/-- Pattern of catalog entry `EXIF_DATETIME`. -/
def re_EXIF_DATETIME : RE := reSeq [d4, chC ':', mm2, chC ':', dd2, chC ' ', hms]

/-- Pattern of catalog entry `JULIAN_DATE`. -/
def re_JULIAN_DATE : RE := reSeq [reLit "24", d4, frac 5]

/-- Pattern of catalog entry `MODIFIED_JULIAN_DATE`. -/
def re_MODIFIED_JULIAN_DATE : RE := reSeq [rgC '5' '6', d4, frac 5]

/-- Pattern of catalog entry `ORDINAL_DATE_SHORT`. -/
def re_ORDINAL_DATE_SHORT : RE := reSeq [d2, ddd3]

/-- Pattern of catalog entry `IBM_MAINFRAME`. -/
def re_IBM_MAINFRAME : RE := reSeq [rgC '1' '2', reRepN 16 digit]

/-- Pattern of catalog entry `AVIATION_METAR`. -/
def re_AVIATION_METAR : RE := reSeq [dd2, hh2, ms2, chC 'Z', chC ' ', monUp, chC ' ', d2]

/-- Pattern of catalog entry `BROADCAST_TIMECODE`. -/
def re_BROADCAST_TIMECODE : RE :=
  reSeq [ddd3, chC ':', hh2, chC ':', ms2, chC ':', ms2, chC ':', ms2]

/-- Pattern of catalog entry `SMPTE_TIMECODE`. -/
def re_SMPTE_TIMECODE : RE :=
  reSeq [hh2, chC ':', ms2, chC ':', ms2, chC ':',
    reAlts [reSeq [rgC '0' '2', digit], reSeq [chC '3', rgC '0' '9']]]

/-- Pattern of catalog entry `ISO_WEEK`. -/
def re_ISO_WEEK : RE := reSeq [d4, chC '-', chC 'W', wk2]

/-- Pattern of catalog entry `ALT_ISO_WEEK`. -/
def re_ALT_ISO_WEEK : RE := reSeq [chC 'W', wk2, chC '-', d4]

/-- Pattern of catalog entry `JULIAN_SHORT`. -/
def re_JULIAN_SHORT : RE := reSeq [d2, ddd3]

/-- Pattern of catalog entry `AVIATION_MIXED`. -/
def re_AVIATION_MIXED : RE := reSeq [hh2, ms2, reLit "UTC", monAbbr, dd2]

/-- Pattern of catalog entry `ZULU_INDICATOR`. -/
def re_ZULU_INDICATOR : RE :=
  reSeq [d4, chC '-', mm2, chC '-', dd2, chC 'T', hms, reOpt (frac 9), chC 'Z']

/-- Pattern of catalog entry `ISO_TZ_OFFSET`. -/
def re_ISO_TZ_OFFSET : RE :=
  reSeq [d4, chC '-', mm2, chC '-', dd2, chC 'T', hms, reOpt (frac 9), pm, hh2, chC ':', ms2]

/-- Pattern of catalog entry `COMPACT_TZ_OFFSET`. -/
def re_COMPACT_TZ_OFFSET : RE :=
  reSeq [d4, chC '-', mm2, chC '-', dd2, chC 'T', hms, reOpt (frac 9), pm, hh2, ms2]

/-- Pattern of catalog entry `GMT_OFFSET`. -/
def re_GMT_OFFSET : RE :=
  reSeq [d4, chC '-', mm2, chC '-', dd2, chC ' ', hms, reLit " GMT", pm, hh2, chC ':', ms2]

/-- Pattern of catalog entry `NAMED_TIMEZONE`. -/
def re_NAMED_TIMEZONE : RE :=
  reSeq [d4, chC '-', mm2, chC '-', dd2, chC ' ', hms, chC ' ', reRepR 3 5 (rgC 'A' 'Z')]

/-- Pattern of catalog entry `IANA_TIMEZONE`. -/
def re_IANA_TIMEZONE : RE :=
  reSeq [d4, chC '-', mm2, chC '-', dd2, chC ' ', hms, chC ' ',
    rePlus (clsN [(65, 90), (97, 122)]), chC '/', rePlus (clsN [(65, 90), (97, 122), (95, 95)])]

/-- Pattern of catalog entry `SIMPLE_UTC_OFFSET`. -/
def re_SIMPLE_UTC_OFFSET : RE :=
  reSeq [d4, chC '-', mm2, chC '-', dd2, chC ' ', hms, reLit " UTC", pm,
    reAlts [reSeq [reOpt (rgC '0' '1'), digit], reSeq [chC '2', rgC '0' '3']]]

/-- Pattern of catalog entry `JAVA8_DATETIME`. -/
def re_JAVA8_DATETIME : RE :=
  reSeq [d4, chC '-', mm2, chC '-', dd2, chC 'T', hms, frac 3, pm, hh2, chC ':', ms2,
    chC '[', rePlus (clsN [(65, 90), (97, 122), (47, 47)]), chC ']']

/-- Pattern of catalog entry `SIGNED_UNIX`. -/
def re_SIGNED_UNIX : RE := reSeq [pm, rgC '1' '9', reRepN 9 digit]

/-- Pattern of catalog entry `HYBRID_TIMESTAMP`. -/
def re_HYBRID_TIMESTAMP : RE :=
  reSeq [chC '@', rgC '1' '9', reRepN 12 digit, chC '/', d4, chC '-', mm2, chC '-', dd2]

/-- Pattern of catalog entry `W3C_DTF`. -/
def re_W3C_DTF : RE :=
  reSeq [d4, chC '-', mm2, chC '-', dd2, chC 'T', hms, pm, hh2, chC ':', ms2]

/-- Pattern of catalog entry `XML_TIMESTAMP`. -/
def re_XML_TIMESTAMP : RE := reSeq [chC '<', rgC '1' '9', reRepN 9 digit, chC '>']

/-- Pattern of catalog entry `ISO_WEEK_WEEKDAY`. -/
def re_ISO_WEEK_WEEKDAY : RE := reSeq [d4, chC '.', wk2, chC '.', rgC '1' '7']

/-- Pattern of catalog entry `CUSTOM_EPOCH`. -/
def re_CUSTOM_EPOCH : RE :=
  reAlts [reSeq [rgC '1' '9', reRepN 9 digit], reSeq [rgC '1' '9', reRepN 12 digit],
    reSeq [rgC '1' '9', reRepN 15 digit], reSeq [rgC '1' '9', reRepN 18 digit]]

/-- Pattern of catalog entry `COMPACT_DATETIME`. -/
def re_COMPACT_DATETIME : RE := reSeq [d2, mm2, dd2, chC '-', hh2, ms2, ms2]

/-- Pattern of catalog entry `CHINESE_CALENDAR`, the class
`[一-鿿年月日]+` (the three named characters lie inside the CJK
range and are kept as explicit singleton ranges as in the source). -/
def re_CHINESE_CALENDAR : RE :=
  rePlus (clsN [(19968, 40959), (24180, 24180), (26376, 26376), (26085, 26085)])

/-- Pattern of catalog entry `ISLAMIC_CALENDAR`. -/
def re_ISLAMIC_CALENDAR : RE :=
  reSeq [chC '1', rgC '3' '5', d2, chC '-', mm2, chC '-',
    reAlts [reSeq [chC '0', rgC '1' '9'], reSeq [rgC '1' '2', digit], reLit "30"]]

/-- Pattern of catalog entry `HEBREW_CALENDAR`. -/
def re_HEBREW_CALENDAR : RE :=
  reSeq [chC '5', rgC '7' '8', d2, chC '-', mm2, chC '-',
    reAlts [reSeq [chC '0', rgC '1' '9'], reSeq [rgC '1' '2', digit], reLit "30"]]

/-- Pattern of catalog entry `INDIAN_CALENDAR`. -/
def re_INDIAN_CALENDAR : RE :=
  reSeq [d4, chC ' ',
    reAlts (["Chaitra", "Vaisakha", "Jyaishtha", "Ashadha", "Sravana", "Bhadra", "Asvina",
      "Kartika", "Agrahayana", "Pausha", "Magha", "Phalguna"].map reLit), chC ' ', n31]

/-- Pattern of catalog entry `THAI_CALENDAR`. -/
def re_THAI_CALENDAR : RE := reSeq [reLit "25", d2, chC '-', mm2, chC '-', dd2]

/-- Pattern of catalog entry `JAPANESE_CALENDAR`. -/
def re_JAPANESE_CALENDAR : RE :=
  reSeq [reAlts [reLit "令和", reLit "平成", reLit "昭和", reLit "大正", reLit "明治"],
    reRepR 1 2 digit, chC '年', n12, chC '月', n31, chC '日']

/-- Catalog `TIMESTAMP_FORMATS` of `src/time_patterns.rs`, in source
insertion order.  The second component is the compile result of the
entry's pattern (`Regex::new` in the source); every shipped pattern is a
valid regex, so every entry carries `some`. -/
def TIMESTAMP_FORMATS : List (String × Option RE) :=
  [("ISO_DATE", some re_ISO_DATE),
   ("ISO_DATETIME", some re_ISO_DATETIME),
   ("ISO_DATETIME_UTC", some re_ISO_DATETIME_UTC),
   ("ISO_DATETIME_TZ", some re_ISO_DATETIME_TZ),
   ("ISO_DATETIME_MS", some re_ISO_DATETIME_MS),
   ("ISO_DATETIME_MS_UTC", some re_ISO_DATETIME_MS_UTC),
   ("ISO_DATE_BASIC", some re_ISO_DATE_BASIC),
   ("ISO_DATETIME_BASIC", some re_ISO_DATETIME_BASIC),
   ("ISO_ORDINAL_DATE", some re_ISO_ORDINAL_DATE),
   ("ISO_WEEK_DATE", some re_ISO_WEEK_DATE),
   ("UNIX_SECONDS", some re_UNIX_SECONDS),
   ("UNIX_MILLISECONDS", some re_UNIX_MILLISECONDS),
   ("UNIX_MICROSECONDS", some re_UNIX_MICROSECONDS),
   ("UNIX_NANOSECONDS", some re_UNIX_NANOSECONDS),
   ("RFC_822_1123", some re_RFC_822_1123),
   ("RFC_850_1036", some re_RFC_850_1036),
   ("ANSI_C_ASCTIME", some re_ANSI_C_ASCTIME),
   ("RFC_3339", some re_RFC_3339),
   ("US_DATETIME", some re_US_DATETIME),
   ("EU_DATETIME", some re_EU_DATETIME),
   ("ASIAN_DATETIME", some re_ASIAN_DATETIME),
   ("GERMAN_DATETIME", some re_GERMAN_DATETIME),
   ("UK_DATETIME", some re_UK_DATETIME),
   ("SHORT_EU_DATETIME", some re_SHORT_EU_DATETIME),
   ("SHORT_US_DATETIME", some re_SHORT_US_DATETIME),
   ("TIME_LEADING_FORMAT", some re_TIME_LEADING_FORMAT),
   ("TIME_24H", some re_TIME_24H),
   ("TIME_24H_MS", some re_TIME_24H_MS),
   ("TIME_12H", some re_TIME_12H),
   ("TIME_12H_SHORT", some re_TIME_12H_SHORT),
   ("TIME_CONTINUOUS_MS", some re_TIME_CONTINUOUS_MS),
   ("TIME_MILITARY", some re_TIME_MILITARY),
   ("SQL_TIMESTAMP", some re_SQL_TIMESTAMP),
   ("SQL_TIMESTAMP_MS", some re_SQL_TIMESTAMP_MS),
   ("ORACLE_TIMESTAMP", some re_ORACLE_TIMESTAMP),
   ("DB2_TIMESTAMP", some re_DB2_TIMESTAMP),
   ("MSSQL_TIMESTAMP", some re_MSSQL_TIMESTAMP),
   ("COMPACT_TIMESTAMP", some re_COMPACT_TIMESTAMP),
   ("POSTGRES_TIMESTAMP_TZ", some re_POSTGRES_TIMESTAMP_TZ),
   ("TAGGED_UNIX", some re_TAGGED_UNIX),
   ("SHORT_DATE", some re_SHORT_DATE),
   ("SAS_DATETIME", some re_SAS_DATETIME),
   ("DOTNET_DATETIME", some re_DOTNET_DATETIME),
   ("HYPHEN_SEPARATED", some re_HYPHEN_SEPARATED),
   ("CONTINUOUS_DATETIME", some re_CONTINUOUS_DATETIME),
   ("NASA_MISSION", some re_NASA_MISSION),
   ("EXIF_DATETIME", some re_EXIF_DATETIME),
   ("JULIAN_DATE", some re_JULIAN_DATE),
   ("MODIFIED_JULIAN_DATE", some re_MODIFIED_JULIAN_DATE),
   ("ORDINAL_DATE_SHORT", some re_ORDINAL_DATE_SHORT),
   ("IBM_MAINFRAME", some re_IBM_MAINFRAME),
   ("AVIATION_METAR", some re_AVIATION_METAR),
   ("BROADCAST_TIMECODE", some re_BROADCAST_TIMECODE),
   ("SMPTE_TIMECODE", some re_SMPTE_TIMECODE),
   ("ISO_WEEK", some re_ISO_WEEK),
   ("ALT_ISO_WEEK", some re_ALT_ISO_WEEK),
   ("JULIAN_SHORT", some re_JULIAN_SHORT),
   ("AVIATION_MIXED", some re_AVIATION_MIXED),
   ("ZULU_INDICATOR", some re_ZULU_INDICATOR),
   ("ISO_TZ_OFFSET", some re_ISO_TZ_OFFSET),
   ("COMPACT_TZ_OFFSET", some re_COMPACT_TZ_OFFSET),
   ("GMT_OFFSET", some re_GMT_OFFSET),
   ("NAMED_TIMEZONE", some re_NAMED_TIMEZONE),
   ("IANA_TIMEZONE", some re_IANA_TIMEZONE),
   ("SIMPLE_UTC_OFFSET", some re_SIMPLE_UTC_OFFSET),
   ("JAVA8_DATETIME", some re_JAVA8_DATETIME),
   ("SIGNED_UNIX", some re_SIGNED_UNIX),
   ("HYBRID_TIMESTAMP", some re_HYBRID_TIMESTAMP),
   ("W3C_DTF", some re_W3C_DTF),
   ("XML_TIMESTAMP", some re_XML_TIMESTAMP),
   ("ISO_WEEK_WEEKDAY", some re_ISO_WEEK_WEEKDAY),
   ("CUSTOM_EPOCH", some re_CUSTOM_EPOCH),
   ("COMPACT_DATETIME", some re_COMPACT_DATETIME),
   ("CHINESE_CALENDAR", some re_CHINESE_CALENDAR),
   ("ISLAMIC_CALENDAR", some re_ISLAMIC_CALENDAR),
   ("HEBREW_CALENDAR", some re_HEBREW_CALENDAR),
   ("INDIAN_CALENDAR", some re_INDIAN_CALENDAR),
   ("THAI_CALENDAR", some re_THAI_CALENDAR),
   ("JAPANESE_CALENDAR", some re_JAPANESE_CALENDAR)]

/-- Classifier loop of `identify_timestamp_format`, generalised over the
catalog it iterates: a failed compile result is skipped with no
caller-visible failure, a successful match appends the entry's name.  The
source iterates a `HashMap` in arbitrary order and collects a `Vec`; the
spec makes order insignificant, and this embedding iterates in source
insertion order. -/
def identify_timestamp_format_over : List (String × Option RE) → String → List String
  | [], _ => []
  | (name, some r) :: rest, ts =>
    if matchRE r (strCodes ts) then name :: identify_timestamp_format_over rest ts
    else identify_timestamp_format_over rest ts
  | (_, none) :: rest, ts => identify_timestamp_format_over rest ts

/-- Classifier `identify_timestamp_format` of `src/time_patterns.rs`. -/
def identify_timestamp_format (timestamp : String) : List String :=
  identify_timestamp_format_over TIMESTAMP_FORMATS timestamp

/-- Test whether a prefix list equals the start of another list, the core
of the `starts_with`/`ends_with`/`contains` string tests used by the test
module's `get_category`. -/
def listStarts : List Char → List Char → Bool
  | _, [] => true
  | [], _ :: _ => false
  | a :: as, b :: bs => a = b && listStarts as bs

/-- Rust `str::starts_with` on string literals. -/
def strStarts (s p : String) : Bool := listStarts s.data p.data

/-- Rust `str::ends_with` on string literals. -/
def strEnds (s p : String) : Bool := listStarts s.data.reverse p.data.reverse

/-- Substring occurrence at any position, Rust `str::contains`. -/
def listHas (p : List Char) : List Char → Bool
  | [] => listStarts [] p
  | a :: as => listStarts (a :: as) p || listHas p as

/-- Rust `str::contains` on string literals. -/
def strHas (s p : String) : Bool := listHas p.data s.data

/-- Category of a format name, mirroring `get_category` of the test
module of `src/time_patterns.rs`. -/
def get_category (name : String) : String :=
  if strStarts name "ISO_" then "ISO"
  else if strStarts name "UNIX_" then "UNIX"
  else if strStarts name "RFC_" then "RFC"
  else if strHas name "DATETIME" then "DATETIME"
  else if strStarts name "TIME_" then "TIME"
  else if strEnds name "_TIMESTAMP" then "DATABASE"
  else if strEnds name "_CALENDAR" then "CALENDAR"
  else if strHas name "TZ_" || strEnds name "_TIMEZONE" then "TIMEZONE"
  else "OTHER"

/-- Evaluation of one catalog entry on an input, the body of the
classifier loop: a failed compile result never matches. -/
def matchEntry (e : String × Option RE) (s : String) : Bool :=
  match e.2 with
  | some r => matchRE r (strCodes s)
  | none => false

/-- Whether the input `s` matches the entry `e` and no other catalog
entry of the same category, the discriminating-example test for one
entry. -/
def discriminates (e : String × Option RE) (s : String) : Bool :=
  matchEntry e s &&
    TIMESTAMP_FORMATS.all fun e2 =>
      decide (e2.1 = e.1) || decide (get_category e2.1 ≠ get_category e.1) || !(matchEntry e2 s)

/-- Chosen discriminating example for each catalog entry that has one. -/
def discExamples : List (String × String) :=
  [("ISO_DATE", "2025-05-19"),
   ("ISO_DATETIME", "2025-05-19T14:30:15"),
   ("ISO_DATETIME_UTC", "2025-05-19T14:30:15Z"),
   ("ISO_DATETIME_MS", "2025-05-19T14:30:15.123"),
   ("ISO_DATETIME_MS_UTC", "2025-05-19T14:30:15.123Z"),
   ("ISO_DATE_BASIC", "20250519"),
   ("ISO_DATETIME_BASIC", "20250519T143015"),
   ("ISO_ORDINAL_DATE", "2025-139"),
   ("ISO_WEEK_DATE", "2025-W20-1"),
   ("UNIX_SECONDS", "1716159600"),
   ("UNIX_MILLISECONDS", "1716159600123"),
   ("UNIX_MICROSECONDS", "1716159600123456"),
   ("UNIX_NANOSECONDS", "1716159600123456789"),
   ("RFC_822_1123", "Mon, 19 May 2025 14:30:15 GMT"),
   ("RFC_850_1036", "Monday, 19-May-25 14:30:15 GMT"),
   ("ANSI_C_ASCTIME", "Mon May 19 14:30:15 2025"),
   ("RFC_3339", "2025-05-19T14:30:15Z"),
   ("US_DATETIME", "05/19/2025 14:30:15"),
   ("EU_DATETIME", "19/05/2025 14:30:15"),
   ("ASIAN_DATETIME", "2025/05/19 14:30:15"),
   ("GERMAN_DATETIME", "19.05.2025 14:30:15"),
   ("UK_DATETIME", "19-May-2025 14:30:15"),
   ("SHORT_EU_DATETIME", "19-05-25 14:30:15"),
   ("SHORT_US_DATETIME", "05-19-25 14:30:15"),
   ("TIME_LEADING_FORMAT", "14:30:15 19/05/2025"),
   ("TIME_24H", "14:30:15"),
   ("TIME_24H_MS", "14:30:15.123"),
   ("TIME_12H", "2:30:15 PM"),
   ("TIME_12H_SHORT", "2:30 PM"),
   ("TIME_CONTINUOUS_MS", "143015123"),
   ("TIME_MILITARY", "143015"),
   ("SQL_TIMESTAMP", "2025-05-19 14:30:15"),
   ("SQL_TIMESTAMP_MS", "2025-05-19 14:30:15.123"),
   ("ORACLE_TIMESTAMP", "19-MAY-25 2.30.15.1 PM"),
   ("DB2_TIMESTAMP", "2025-05-19-14.30.15.123456"),
   ("MSSQL_TIMESTAMP", "20250519 14:30:15"),
   ("COMPACT_TIMESTAMP", "20250519143015123"),
   ("POSTGRES_TIMESTAMP_TZ", "2025-05-19 14:30:15.123+02:00"),
   ("TAGGED_UNIX", "@1716159600"),
   ("SHORT_DATE", "25-05-19"),
   ("SAS_DATETIME", "19MAY2025:14:30:15"),
   ("DOTNET_DATETIME", "05/19/2025 2:30:15 PM"),
   ("HYPHEN_SEPARATED", "2025-05-19-14-30-15"),
   ("CONTINUOUS_DATETIME", "20250519143015"),
   ("NASA_MISSION", "25.139/14:30:15"),
   ("EXIF_DATETIME", "2025:05:19 14:30:15"),
   ("JULIAN_DATE", "241234.5"),
   ("MODIFIED_JULIAN_DATE", "57000.5"),
   ("IBM_MAINFRAME", "11716159600123456"),
   ("AVIATION_METAR", "191430Z MAY 25"),
   ("BROADCAST_TIMECODE", "139:14:30:15:25"),
   ("SMPTE_TIMECODE", "14:30:15:25"),
   ("ISO_WEEK", "2025-W20"),
   ("ALT_ISO_WEEK", "W20-2025"),
   ("AVIATION_MIXED", "1430UTCMay19"),
   ("ZULU_INDICATOR", "2025-05-19T14:30:15.123456789Z"),
   ("ISO_TZ_OFFSET", "2025-05-19T14:30:15.1+02:00"),
   ("COMPACT_TZ_OFFSET", "2025-05-19T14:30:15+0200"),
   ("GMT_OFFSET", "2025-05-19 14:30:15 GMT+02:00"),
   ("NAMED_TIMEZONE", "2025-05-19 14:30:15 EST"),
   ("IANA_TIMEZONE", "2025-05-19 14:30:15 America/New_York"),
   ("SIMPLE_UTC_OFFSET", "2025-05-19 14:30:15 UTC+5"),
   ("JAVA8_DATETIME", "2025-05-19T14:30:15.123+02:00[Europe/Paris]"),
   ("SIGNED_UNIX", "+1716159600"),
   ("HYBRID_TIMESTAMP", "@1716159600123/2025-05-19"),
   ("W3C_DTF", "2025-05-19T14:30:15+02:00"),
   ("XML_TIMESTAMP", "<1716159600>"),
   ("ISO_WEEK_WEEKDAY", "2025.20.1"),
   ("CUSTOM_EPOCH", "1716159600"),
   ("COMPACT_DATETIME", "250519-143015"),
   ("CHINESE_CALENDAR", "年月日"),
   ("ISLAMIC_CALENDAR", "1446-05-19"),
   ("HEBREW_CALENDAR", "5785-05-19"),
   ("INDIAN_CALENDAR", "2025 Chaitra 5"),
   ("THAI_CALENDAR", "2568-05-19"),
   ("JAPANESE_CALENDAR", "令和5年5月19日")]

/-- Lookup of the chosen discriminating example of an entry. -/
def findExample (name : String) : String :=
  (discExamples.lookup name).getD ""

/-- Entries that provably have no discriminating example inside their own
category: `ORDINAL_DATE_SHORT` and `JULIAN_SHORT` carry the identical
pattern and share category `OTHER`, and `ISO_DATETIME_TZ` denotes a
sub-language of same-category `ISO_TZ_OFFSET` (whose fractional-seconds
part is optional). -/
def expectedOverlapNames : List String :=
  ["ISO_DATETIME_TZ", "ORDINAL_DATE_SHORT", "JULIAN_SHORT"]

/-- Combined discriminating-example check over the whole catalog, with
the expected-overlap entries excluded. -/
def c4check : Bool :=
  TIMESTAMP_FORMATS.all fun e =>
    decide (e.1 ∈ expectedOverlapNames) || discriminates e (findExample e.1)

/-- Continuation byte test for UTF-8 decoding, `0x80..=0xBF`. -/
def contB (b : Nat) : Bool := decide (128 ≤ b ∧ b ≤ 191)

/-- UTF-8 decoding of a byte list to the list of Unicode scalar values,
following exactly the well-formed byte sequences accepted by Rust's
`std::str::from_utf8` (overlong encodings, surrogates and values above
`U+10FFFF` are rejected).  `none` is the `Utf8Error` case. -/
def utf8ToCodes : List Nat → Option (List Nat)
  | [] => some []
  | b :: bs =>
    if b < 128 then
      (utf8ToCodes bs).map fun cs => b :: cs
    else if 194 ≤ b ∧ b ≤ 223 then
      match bs with
      | b1 :: bs2 =>
        if contB b1 then
          (utf8ToCodes bs2).map fun cs => ((b - 192) * 64 + (b1 - 128)) :: cs
        else none
      | [] => none
    else if b = 224 then
      match bs with
      | b1 :: b2 :: bs3 =>
        if decide (160 ≤ b1 ∧ b1 ≤ 191) && contB b2 then
          (utf8ToCodes bs3).map fun cs =>
            ((b - 224) * 4096 + (b1 - 128) * 64 + (b2 - 128)) :: cs
        else none
      | _ => none
    else if (225 ≤ b ∧ b ≤ 236) ∨ b = 238 ∨ b = 239 then
      match bs with
      | b1 :: b2 :: bs3 =>
        if contB b1 && contB b2 then
          (utf8ToCodes bs3).map fun cs =>
            ((b - 224) * 4096 + (b1 - 128) * 64 + (b2 - 128)) :: cs
        else none
      | _ => none
    else if b = 237 then
      match bs with
      | b1 :: b2 :: bs3 =>
        if decide (128 ≤ b1 ∧ b1 ≤ 159) && contB b2 then
          (utf8ToCodes bs3).map fun cs =>
            ((b - 224) * 4096 + (b1 - 128) * 64 + (b2 - 128)) :: cs
        else none
      | _ => none
    else if b = 240 then
      match bs with
      | b1 :: b2 :: b3 :: bs4 =>
        if decide (144 ≤ b1 ∧ b1 ≤ 191) && contB b2 && contB b3 then
          (utf8ToCodes bs4).map fun cs =>
            ((b - 240) * 262144 + (b1 - 128) * 4096 + (b2 - 128) * 64 + (b3 - 128)) :: cs
        else none
      | _ => none
    else if 241 ≤ b ∧ b ≤ 243 then
      match bs with
      | b1 :: b2 :: b3 :: bs4 =>
        if contB b1 && contB b2 && contB b3 then
          (utf8ToCodes bs4).map fun cs =>
            ((b - 240) * 262144 + (b1 - 128) * 4096 + (b2 - 128) * 64 + (b3 - 128)) :: cs
        else none
      | _ => none
    else if b = 244 then
      match bs with
      | b1 :: b2 :: b3 :: bs4 =>
        if decide (128 ≤ b1 ∧ b1 ≤ 143) && contB b2 && contB b3 then
          (utf8ToCodes bs4).map fun cs =>
            ((b - 240) * 262144 + (b1 - 128) * 4096 + (b2 - 128) * 64 + (b3 - 128)) :: cs
        else none
      | _ => none
    else none

/-- ASCII decimal digit test on a code point. -/
def isDigitCode (c : Nat) : Bool := decide (48 ≤ c ∧ c ≤ 57)

/-- Rust `str::parse::<i32>` over the code points of the string: an
optional single `+` or `-` sign, one or more ASCII digits, and a range
check against the `i32` bounds (Rust's checked accumulation rejects
exactly the out-of-range values). -/
def parseI32 (cs : List Nat) : Option Int :=
  let sd : Int × List Nat :=
    match cs with
    | 43 :: rest => (1, rest)
    | 45 :: rest => (-1, rest)
    | _ => (1, cs)
  if sd.2 = [] then none
  else if sd.2.all isDigitCode then
    let v : Nat := sd.2.foldl (fun a c => a * 10 + (c - 48)) 0
    let iv : Int := sd.1 * v
    if decide (-(2 ^ 31) ≤ iv ∧ iv < 2 ^ 31) then some iv else none
  else none

/-- Decimal digits of a natural number, most significant first, as ASCII
code points. -/
def natToCodesAux : Nat → List Nat → List Nat
  | 0, acc => acc
  | n + 1, acc => natToCodesAux ((n + 1) / 10) (((n + 1) % 10 + 48) :: acc)
decreasing_by exact Nat.div_lt_self (Nat.succ_pos n) (by decide)

/-- ASCII bytes of the decimal representation of a natural number. -/
def natToCodes (n : Nat) : List Nat :=
  if n = 0 then [48] else natToCodesAux n []

/-- ASCII bytes of Rust `i32::to_string`: a leading `-` for negative
values, no sign otherwise. -/
def intToCodes (i : Int) : List Nat :=
  if i < 0 then 45 :: natToCodes i.natAbs else natToCodes i.natAbs

/-- Two's-complement wrap-around into the `i32` range, the behaviour of
release-mode `i32` arithmetic in the compiled SmartModule. -/
def wrapI32 (x : Int) : Int := (x + 2 ^ 31) % 2 ^ 32 - 2 ^ 31

/-- Record handed to the SmartModule `map` function: an optional key and
a byte-list value, mirroring `SmartModuleRecord`. -/
structure SmartModuleRecord where
  key : Option (List Nat)
  value : List Nat

/-- Record transform `map` of `src/lib.rs`: clone the key, require the
value to be valid UTF-8 (`std::str::from_utf8(...)?`), parse it as an
`i32` (`string.parse::<i32>()?`), double it, and re-emit the decimal
string as the new value.  Both fallible steps propagate their error with
`?`; the error payload is irrelevant to the claims and is collapsed to
`Unit`. -/
def map (record : SmartModuleRecord) : Except Unit (Option (List Nat) × List Nat) :=
  let key := record.key
  match utf8ToCodes record.value with
  | none => .error ()
  | some cs =>
    match parseI32 cs with
    | none => .error ()
    | some int => .ok (key, intToCodes (wrapI32 (int * 2)))

/-- One classification call as a state transformer on the catalog: the
call reads the catalog, computes the result list, and leaves the catalog
it used unchanged (the source function takes no mutable state and only
reads the `lazy_static` map). -/
def classifyRun (cat : List (String × Option RE)) (ts : String) :
    List String × List (String × Option RE) :=
  (identify_timestamp_format_over cat ts, cat)

/-- Membership in a classification result is equivalent to the existence
of a successfully compiled catalog entry with that name whose regex
matches the whole input. -/
theorem mem_over_iff (cat : List (String × Option RE)) (ts name : String) :
    name ∈ identify_timestamp_format_over cat ts ↔
      ∃ r : RE, (name, some r) ∈ cat ∧ matchRE r (strCodes ts) = true := by
  induction cat with
  | nil => simp [identify_timestamp_format_over]
  | cons e rest ih =>
    obtain ⟨n, ro⟩ := e
    cases ro with
    | none =>
      simp only [identify_timestamp_format_over, ih, List.mem_cons]
      constructor
      · rintro ⟨r, hr, hm⟩
        exact ⟨r, Or.inr hr, hm⟩
      · rintro ⟨r, hr | hr, hm⟩
        · simp [Prod.ext_iff] at hr
        · exact ⟨r, hr, hm⟩
    | some r0 =>
      by_cases hm0 : matchRE r0 (strCodes ts) = true
      · simp only [identify_timestamp_format_over, hm0, if_true, List.mem_cons, ih]
        constructor
        · rintro (rfl | ⟨r, hr, hm⟩)
          · exact ⟨r0, Or.inl rfl, hm0⟩
          · exact ⟨r, Or.inr hr, hm⟩
        · rintro ⟨r, hr | hr, hm⟩
          · simp only [Prod.ext_iff, Option.some.injEq] at hr
            exact Or.inl hr.1
          · exact Or.inr ⟨r, hr, hm⟩
      · rw [Bool.not_eq_true] at hm0
        simp only [identify_timestamp_format_over, hm0, Bool.false_eq_true, if_false, ih]
        constructor
        · rintro ⟨r, hr, hm⟩
          exact ⟨r, List.mem_cons_of_mem _ hr, hm⟩
        · rintro ⟨r, hr, hm⟩
          rcases List.mem_cons.mp hr with hr | hr
          · simp only [Prod.ext_iff, Option.some.injEq] at hr
            rw [hr.2] at hm
            rw [hm] at hm0
            cases hm0
          · exact ⟨r, hr, hm⟩

/-- Skipping behaviour of the classifier loop: entries whose pattern
failed to compile contribute nothing, so classification over any catalog
equals classification over its successfully compiled entries. -/
theorem classify_skips (cat : List (String × Option RE)) (ts : String) :
    identify_timestamp_format_over cat ts =
      identify_timestamp_format_over (cat.filter fun e => e.2.isSome) ts := by
  induction cat with
  | nil => rfl
  | cons e rest ih =>
    obtain ⟨n, ro⟩ := e
    cases ro with
    | none => simpa [identify_timestamp_format_over, List.filter_cons] using ih
    | some r => simp [identify_timestamp_format_over, List.filter_cons, ih]

/-- Name uniqueness of the shipped catalog. -/
theorem timestampFormatsNodup : (TIMESTAMP_FORMATS.map Prod.fst).Nodup := by decide

/-- In a catalog with pairwise distinct names, the compile result stored
under a name is unique. -/
theorem entry_unique :
    ∀ {cat : List (String × Option RE)}, (cat.map Prod.fst).Nodup →
      ∀ {name : String} {x y : Option RE}, (name, x) ∈ cat → (name, y) ∈ cat → x = y := by
  intro cat
  induction cat with
  | nil =>
    intro _ _ _ _ hx
    cases hx
  | cons e rest ih =>
    intro hnd name x y hx hy
    simp only [List.map_cons, List.nodup_cons] at hnd
    obtain ⟨hn, hnd2⟩ := hnd
    rcases List.mem_cons.mp hx with hx | hx <;> rcases List.mem_cons.mp hy with hy | hy
    · exact congrArg Prod.snd (hx.trans hy.symm)
    · exfalso
      apply hn
      rw [← hx]
      show name ∈ List.map Prod.fst rest
      exact List.mem_map_of_mem Prod.fst hy
    · exfalso
      apply hn
      rw [← hy]
      show name ∈ List.map Prod.fst rest
      exact List.mem_map_of_mem Prod.fst hx
    · exact ih hnd2 hx hy

/-- Wrap-around is the identity on values already inside the `i32`
range. -/
theorem wrapI32_eq {x : Int} (h1 : -(2 ^ 31) ≤ x) (h2 : x < 2 ^ 31) : wrapI32 x = x := by
  unfold wrapI32
  have ha : (0 : Int) ≤ x + 2 ^ 31 := by linarith
  have hb : x + 2 ^ 31 < 2 ^ 32 := by
    have h32 : (2 : Int) ^ 32 = 2 ^ 31 + 2 ^ 31 := by norm_num
    linarith
  rw [Int.emod_eq_of_lt ha hb]
  ring

/-- C1: for every input string, a name is in the result of
`identify_timestamp_format` if and only if the catalog holds a compiled
pattern under that name that matches the entire input; every entry is
considered independently and no other names appear. -/
theorem claim_C1 (ts name : String) :
    name ∈ identify_timestamp_format ts ↔
      ∃ r : RE, (name, some r) ∈ TIMESTAMP_FORMATS ∧ matchRE r (strCodes ts) = true :=
  mem_over_iff TIMESTAMP_FORMATS ts name

/-- C2: classification is total — every input string yields a (possibly
empty) result list — and an entry whose pattern failed to compile is
skipped while classification proceeds over the remaining entries:
classification over any catalog equals classification over its
successfully compiled entries. -/
theorem claim_C2 :
    (∀ ts : String, ∃ res : List String, identify_timestamp_format ts = res) ∧
    (∀ (cat : List (String × Option RE)) (ts : String),
      identify_timestamp_format_over cat ts =
        identify_timestamp_format_over (cat.filter fun e => e.2.isSome) ts) :=
  ⟨fun _ => ⟨_, rfl⟩, classify_skips⟩

/-- C3: `"05/19/2025 14:30:15"` classifies as `US_DATETIME` and not
`EU_DATETIME`, and `"19/05/2025 14:30:15"` classifies as `EU_DATETIME`
and not `US_DATETIME`. -/
theorem claim_C3 :
    ("US_DATETIME" ∈ identify_timestamp_format "05/19/2025 14:30:15" ∧
      "EU_DATETIME" ∉ identify_timestamp_format "05/19/2025 14:30:15") ∧
    ("EU_DATETIME" ∈ identify_timestamp_format "19/05/2025 14:30:15" ∧
      "US_DATETIME" ∉ identify_timestamp_format "19/05/2025 14:30:15") := by
  have h1 : identify_timestamp_format "05/19/2025 14:30:15" = ["US_DATETIME"] := by rfl
  have h2 : identify_timestamp_format "19/05/2025 14:30:15" = ["EU_DATETIME"] := by rfl
  rw [h1, h2]
  refine ⟨⟨by decide, by decide⟩, by decide, by decide⟩

/-- C4 fails as stated: the entry `ORDINAL_DATE_SHORT` has no
discriminating example, because `JULIAN_SHORT` carries the identical
pattern, has a different name, and falls in the same category, so every
string matching the former also matches the latter. -/
theorem claim_C4_counterexample :
    ¬ ∃ s : String,
        matchEntry ("ORDINAL_DATE_SHORT", some re_ORDINAL_DATE_SHORT) s = true ∧
        ∀ e2 ∈ TIMESTAMP_FORMATS, e2.1 ≠ "ORDINAL_DATE_SHORT" →
          get_category e2.1 = get_category "ORDINAL_DATE_SHORT" →
            matchEntry e2 s = false := by
  rintro ⟨s, hm, hall⟩
  have hj : matchEntry ("JULIAN_SHORT", some re_JULIAN_SHORT) s = false :=
    hall ("JULIAN_SHORT", some re_JULIAN_SHORT) (by decide) (by decide) (by decide)
  have hsame : matchEntry ("JULIAN_SHORT", some re_JULIAN_SHORT) s =
      matchEntry ("ORDINAL_DATE_SHORT", some re_ORDINAL_DATE_SHORT) s := rfl
  rw [hsame, hm] at hj
  cases hj

/-- C4, amended: every catalog entry other than the expected-overlap
entries `ORDINAL_DATE_SHORT`, `JULIAN_SHORT` (identical patterns, same
category) and `ISO_DATETIME_TZ` (its language is contained in
same-category `ISO_TZ_OFFSET`) has a literal string that matches it and
no other entry of the same category. -/
theorem claim_C4 :
    ∀ e ∈ TIMESTAMP_FORMATS, e.1 ∉ expectedOverlapNames →
      ∃ s : String, matchEntry e s = true ∧
        ∀ e2 ∈ TIMESTAMP_FORMATS, e2.1 ≠ e.1 →
          get_category e2.1 = get_category e.1 → matchEntry e2 s = false := by
  intro e he hex
  have hc4 : c4check = true := by decide
  have h := List.all_eq_true.mp hc4 e he
  rw [decide_eq_false hex, Bool.false_or] at h
  simp only [discriminates] at h
  rw [Bool.and_eq_true] at h
  obtain ⟨h1, h2⟩ := h
  refine ⟨findExample e.1, h1, ?_⟩
  intro e2 he2 hne hcat
  have h3 := List.all_eq_true.mp h2 e2 he2
  rw [decide_eq_false hne, Bool.false_or,
    decide_eq_false (fun hn => hn hcat), Bool.false_or, Bool.not_eq_true'] at h3
  exact h3

/-- Witness for the amended C4 at the concrete entry `ISO_DATE`. -/
theorem claim_C4_witness :
    ∃ s : String, matchEntry ("ISO_DATE", some re_ISO_DATE) s = true ∧
      ∀ e2 ∈ TIMESTAMP_FORMATS, e2.1 ≠ ("ISO_DATE", some re_ISO_DATE).1 →
        get_category e2.1 = get_category ("ISO_DATE", some re_ISO_DATE).1 →
          matchEntry e2 s = false :=
  claim_C4 ("ISO_DATE", some re_ISO_DATE) (by decide) (by decide)

/-- C5: the catalog contains no two entries with the same format name,
and every entry's pattern compiled successfully, so no defective entry is
present at runtime. -/
theorem claim_C5 :
    (TIMESTAMP_FORMATS.map Prod.fst).Nodup ∧
      ∀ e ∈ TIMESTAMP_FORMATS, e.2.isSome = true :=
  ⟨timestampFormatsNodup, by decide⟩

/-- C6: the empty string matches no catalog pattern, so classification of
the empty string is the empty result. -/
theorem claim_C6 : identify_timestamp_format "" = [] := by rfl

/-- C7: classification is deterministic and side-effect free: a call
leaves the catalog unchanged, and re-running on the catalog state left by
the first call yields the identical result list. -/
theorem claim_C7 (ts : String) :
    (classifyRun TIMESTAMP_FORMATS ts).2 = TIMESTAMP_FORMATS ∧
    (classifyRun (classifyRun TIMESTAMP_FORMATS ts).2 ts).1 =
      (classifyRun TIMESTAMP_FORMATS ts).1 :=
  ⟨rfl, rfl⟩

/-- C8: for every record whose value is valid UTF-8 and parses as a
decimal `i32` value `n` with `2 * n` still representable, `map` returns
`Ok` with the key passed through and the value the decimal string of
`2 * n`. -/
theorem claim_C8 (key : Option (List Nat)) (bs cs : List Nat) (n : Int)
    (h1 : utf8ToCodes bs = some cs) (h2 : parseI32 cs = some n)
    (h3 : -(2 ^ 31) ≤ 2 * n) (h4 : 2 * n < 2 ^ 31) :
    map ⟨key, bs⟩ = .ok (key, intToCodes (2 * n)) := by
  have hw : wrapI32 (n * 2) = n * 2 := wrapI32_eq (by linarith) (by linarith)
  simp only [map, h1, h2, hw]
  rw [Int.mul_comm n 2]

/-- Witness for C8: the record value `"42"` maps to `Ok` with value
`"84"`. -/
theorem claim_C8_witness :
    map ⟨none, [52, 50]⟩ = .ok (none, intToCodes (2 * 42)) :=
  claim_C8 none [52, 50] [52, 50] 42 (by decide) (by decide) (by decide) (by decide)

/-- C9: `W3C_DTF` and `ISO_DATETIME_TZ` denote the same language: for
every input string, one is in the classification result exactly when the
other is. -/
theorem claim_C9 (ts : String) :
    "W3C_DTF" ∈ identify_timestamp_format ts ↔
      "ISO_DATETIME_TZ" ∈ identify_timestamp_format ts := by
  simp only [identify_timestamp_format]
  rw [mem_over_iff, mem_over_iff]
  constructor
  · rintro ⟨r, hr, hm⟩
    have hu : some r = some re_W3C_DTF :=
      entry_unique timestampFormatsNodup hr (by decide)
    obtain rfl : r = re_W3C_DTF := Option.some.inj hu
    exact ⟨re_ISO_DATETIME_TZ, by decide, hm⟩
  · rintro ⟨r, hr, hm⟩
    have hu : some r = some re_ISO_DATETIME_TZ :=
      entry_unique timestampFormatsNodup hr (by decide)
    obtain rfl : r = re_ISO_DATETIME_TZ := Option.some.inj hu
    exact ⟨re_W3C_DTF, by decide, hm⟩

/-- C10: a record whose value is not valid UTF-8, or whose value does not
parse as a decimal `i32`, makes `map` return `Err` and produces no
output record. -/
theorem claim_C10 (key : Option (List Nat)) (bs : List Nat)
    (h : utf8ToCodes bs = none ∨
      ∃ cs, utf8ToCodes bs = some cs ∧ parseI32 cs = none) :
    map ⟨key, bs⟩ = .error () := by
  rcases h with h | ⟨cs, h1, h2⟩
  · simp [map, h]
  · simp [map, h1, h2]

/-- Witness for C10: the single byte `0xFF` is not valid UTF-8, so `map`
returns an error on it. -/
theorem claim_C10_witness : map ⟨none, [255]⟩ = .error () :=
  claim_C10 none [255] (Or.inl (by decide))
